import Mathlib

/-!
Shallow embedding of `src/src/nv_sensors/src/camera.cpp` (`nv::SensorCamera`).

The DriveWorks (DW) API is external: each DW call site is modelled by the
status it returns, supplied as an input environment (fault injection).  The
member variables of `SensorCamera` become a record of handles modelled as
`Bool` / `Option` (a handle is allocated or not; image handles carry the
`dwImageProperties` they were created with).  The configured shrink factor
(`m_shrinkFactor`, a C++ float) is idealized as a rational number.
-/

namespace NvSensors

/-- A `dwStatus` value: `DW_SUCCESS`, the three statuses `run_camera`
dispatches on specially, and `other c` for any further error code. -/
inductive DwStatus where
  | success
  | endOfStream
  | timeOut
  | notReady
  | other (code : Nat)
deriving DecidableEq, Repr

/-- `dwImageFormat`: `DW_IMAGE_FORMAT_RGBA_UINT8` or the sensor's native
format, abstracted as a code. -/
inductive ImageFormat where
  | RGBA_UINT8
  | native (code : Nat)
deriving DecidableEq, Repr

/-- The fields of `dwImageProperties` the component reads or writes. -/
structure dwImageProperties where
  width : Nat
  height : Nat
  format : ImageFormat
deriving DecidableEq, Repr

/-- `imageProperties.width /= m_shrinkFactor` in C++: a `uint32_t` divided by
a float and truncated back to `uint32_t` (truncation toward zero equals floor
for the non-negative values involved).  Written as integer arithmetic on the
rational's numerator and denominator; `shrinkDim_eq_floor` below proves it is
the floor of the exact division `w / f`. -/
def shrinkDim (w : Nat) (f : ℚ) : Nat := w * f.den / f.num.toNat

/-- The member state of `nv::SensorCamera`.  Handles are `true`/`some` when
allocated.  `m_rgbaFrame`, `m_imageResized` and the streamer registration
record the `dwImageProperties` they were created/registered with. -/
structure SensorCamera where
  m_cameraRun : Bool
  m_camera : Bool
  m_rgbaFrame : Option dwImageProperties
  m_imageResized : Option dwImageProperties
  m_imageTransformationEngine : Bool
  m_streamerNvmediaToCpuProcessed : Option dwImageProperties
  m_shrinkFactor : ℚ
  threadSpawned : Bool
deriving Repr

/-- State after `initialize`: no handle allocated, `m_cameraRun = false`,
shrink factor `f` taken from configuration. -/
def initState (f : ℚ) : SensorCamera :=
  { m_cameraRun := false
    m_camera := false
    m_rgbaFrame := none
    m_imageResized := none
    m_imageTransformationEngine := false
    m_streamerNvmediaToCpuProcessed := none
    m_shrinkFactor := f
    threadSpawned := false }

/-- Outcome of `SensorCamera::start`: returned `true`, returned `false`, or
escaped with a `std::runtime_error` thrown by `CHECK_DW_ERROR`. -/
inductive StartOutcome where
  | returnedTrue
  | returnedFalse
  | threw
deriving DecidableEq, Repr

/-- Statuses returned by the DW calls made during `start`, plus the native
image properties reported by `dwSensorCamera_getImageProperties`. -/
structure StartEnv where
  createSensorStatus : DwStatus
  getImagePropertiesStatus : DwStatus
  imageProperties : dwImageProperties
  createRgbaStatus : DwStatus
  createResizedStatus : DwStatus
  streamerInitStatus : DwStatus
  sensorStartStatus : DwStatus
deriving Repr

/-- Tail of `SensorCamera::start` from `dwImageStreamer_initialize` on:
streamer setup, `dwSensor_start`, thread spawn.  `imageProperties` is the
(possibly shrunk) properties value in scope at that point. -/
def startTail (env : StartEnv) (imageProperties : dwImageProperties)
    (s : SensorCamera) : StartOutcome × SensorCamera :=
  if env.streamerInitStatus ≠ .success then
    -- rollback: destroy resized (if non-null), destroy rgba, release sensor
    let s := if s.m_imageResized.isSome then { s with m_imageResized := none } else s
    (.returnedFalse, { s with m_rgbaFrame := none, m_camera := false })
  else
    let s := { s with m_streamerNvmediaToCpuProcessed := some imageProperties }
    if env.sensorStartStatus ≠ .success then
      -- `dwSensor_start` failure branch releases ONLY the sensor handle
      (.returnedFalse, { s with m_camera := false })
    else
      (.returnedTrue, { s with threadSpawned := true, m_cameraRun := true })

/-- `SensorCamera::start`.  Follows the source line by line: create sensor,
query native image properties, create the RGBA conversion image, optionally
set up the transformation engine and the resized image (the resized-image
creation is wrapped in `CHECK_DW_ERROR`, so its failure throws), then
`startTail`. -/
def start (env : StartEnv) (s : SensorCamera) : StartOutcome × SensorCamera :=
  if env.createSensorStatus ≠ .success then
    (.returnedFalse, s)
  else
    let s := { s with m_camera := true }
    if env.getImagePropertiesStatus ≠ .success then
      (.returnedFalse, { s with m_camera := false })
    else
      let imageProperties : dwImageProperties :=
        { env.imageProperties with format := .RGBA_UINT8 }
      if env.createRgbaStatus ≠ .success then
        (.returnedFalse, { s with m_camera := false })
      else
        let s := { s with m_rgbaFrame := some imageProperties }
        if s.m_shrinkFactor > 1 then
          -- `dwImageTransformation_initialize` / border / interpolation setup;
          -- the source discards the returned statuses of these three calls
          let s := { s with m_imageTransformationEngine := true }
          let imageProperties : dwImageProperties :=
            { width := shrinkDim imageProperties.width s.m_shrinkFactor
              height := shrinkDim imageProperties.height s.m_shrinkFactor
              format := .RGBA_UINT8 }
          if env.createResizedStatus ≠ .success then
            (.threw, s)   -- CHECK_DW_ERROR(dwImage_create(&m_imageResized, ...))
          else
            startTail env imageProperties { s with m_imageResized := some imageProperties }
        else
          startTail env imageProperties s

/-- `SensorCamera::stop`: returns `false` immediately when not running;
otherwise clears the flag, joins the worker, and releases streamer, rgba
frame, resized image and sensor (each guarded by a null check). -/
def stop (s : SensorCamera) : Bool × SensorCamera :=
  if !s.m_cameraRun then
    (false, s)
  else
    let s := { s with m_cameraRun := false, threadSpawned := false }
    let s := if s.m_streamerNvmediaToCpuProcessed.isSome then
               { s with m_streamerNvmediaToCpuProcessed := none } else s
    let s := if s.m_rgbaFrame.isSome then { s with m_rgbaFrame := none } else s
    let s := if s.m_imageResized.isSome then { s with m_imageResized := none } else s
    let s := if s.m_camera then { s with m_camera := false } else s
    (true, s)

/-- `sensor_msgs::image_encodings::RGBA8`. -/
def RGBA8 : String := "rgba8"

/-- The fields of the published `sensor_msgs::Image` the component fills. -/
structure ImageMsg where
  stampSec : Nat
  stampNsec : Nat
  seq : Nat
  frame_id : String
  encoding : String
  width : Nat
  height : Nat
  step : Nat
deriving DecidableEq, Repr

/-- The two device-resident buffers a loop iteration can pass to
`dwImageStreamer_producerSend`. -/
inductive Buffer where
  | rgbaFrame
  | imageResized
deriving DecidableEq, Repr

/-- How one iteration of the `while` loop in `run_camera` ends: publishing a
message, `continue`, `break`, or a `CHECK_DW_ERROR` throw escaping the
thread. -/
inductive IterResult where
  | emittedMsg
  | skipped
  | exited
  | thrown
deriving DecidableEq, Repr

/-- Statuses returned by the DW calls of one loop iteration, plus the values
the iteration reads from the environment: the received CPU image's
properties and the frame's device timestamp (microseconds).
`transformStatus` is the value `dwImageTransformation_copyFullImage` would
return; the source discards it. -/
structure IterEnv where
  readStatus : DwStatus
  getImageStatus : DwStatus
  copyConvertStatus : DwStatus
  transformStatus : DwStatus
  producerSendStatus : DwStatus
  consumerReceiveStatus : DwStatus
  getPropertiesStatus : DwStatus
  propWidth : Nat
  propHeight : Nat
  getCPUStatus : DwStatus
  timestamp : Nat
deriving Repr

/-- Observable effects of one loop iteration: how it ended, whether
`dwSensorCamera_readFrameNew` succeeded (a frame was consumed), how many
times `dwSensorCamera_returnFrame` ran, which buffer (if any) was passed to
`dwImageStreamer_producerSend`, and the published message, if any. -/
structure IterOut where
  result : IterResult
  frameReadOk : Bool
  returnFrameCalls : Nat
  sendAttempt : Option Buffer
  emitted : Option ImageMsg
deriving DecidableEq, Repr

/-- The `sensor_msgs::Image` the loop body fills before publishing:
timestamp split into seconds and nanoseconds, `header.seq` from `pair_id`
(declared `unsigned int pair_id = 0;` inside the loop body; the `pair_id++`
after the assignment has no further use), fixed `frame_id`, and
`fillImage(..., RGBA8, prop.height, prop.width, 4 * prop.width, ...)`. -/
def mkMsg (env : IterEnv) : ImageMsg :=
  let pair_id : Nat := 0
  { stampSec := env.timestamp / 1000000
    stampNsec := env.timestamp % 1000000 * 1000
    seq := pair_id
    frame_id := "camera"
    encoding := RGBA8
    width := env.propWidth
    height := env.propHeight
    step := 4 * env.propWidth }

/-- Shared tail of the loop body from `dwImage_getProperties` on: property
query, `dwImage_getCPU`, message fill, consumer/producer return,
`dwSensorCamera_returnFrame`, publish.  `buf` is the buffer that was
producer-sent. -/
def iterTail (env : IterEnv) (buf : Buffer) : IterOut :=
  if env.getPropertiesStatus ≠ .success then
    ⟨.exited, true, 0, some buf, none⟩
  else if env.getCPUStatus ≠ .success then
    ⟨.exited, true, 0, some buf, none⟩
  else
    ⟨.emittedMsg, true, 1, some buf, some (mkMsg env)⟩

/-- One iteration of the `while (m_cameraRun)` loop body of
`SensorCamera::run_camera`, for shrink factor `f`. -/
def runIteration (f : ℚ) (env : IterEnv) : IterOut :=
  match env.readStatus with
  | .endOfStream => ⟨.exited, false, 0, none, none⟩    -- log, break
  | .timeOut     => ⟨.skipped, false, 0, none, none⟩   -- log, continue
  | .notReady    => ⟨.skipped, false, 0, none, none⟩   -- log, continue
  | .other _     => ⟨.exited, false, 0, none, none⟩    -- log, break
  | .success =>
    if env.getImageStatus ≠ .success then
      ⟨.exited, true, 0, none, none⟩
    else
      -- status = dwImage_copyConvert(...)
      let status := env.copyConvertStatus
      if status ≠ .success then
        ⟨.exited, true, 0, none, none⟩
      else if f > 1 then
        -- dwImageTransformation_copyFullImage(...): result discarded,
        -- env.transformStatus is never consulted; the next check re-reads
        -- the stale `status` left by dwImage_copyConvert
        if status ≠ .success then
          ⟨.exited, true, 0, none, none⟩
        else if env.producerSendStatus ≠ .success then
          -- CHECK_DW_ERROR(dwImageStreamer_producerSend(m_imageResized, ...))
          ⟨.thrown, true, 0, some .imageResized, none⟩
        else if env.consumerReceiveStatus ≠ .success then
          ⟨.exited, true, 0, some .imageResized, none⟩
        else
          iterTail env .imageResized
      else
        if env.producerSendStatus ≠ .success then
          ⟨.exited, true, 0, some .rgbaFrame, none⟩
        else if env.consumerReceiveStatus ≠ .success then
          ⟨.exited, true, 0, some .rgbaFrame, none⟩
        else
          iterTail env .rgbaFrame

/-- `run_camera`'s loop over a sequence of per-iteration environments
(`m_cameraRun` held true throughout; the list ending models `stop` clearing
the flag).  `break` and a thrown exception both end the loop. -/
def run_loop (f : ℚ) : List IterEnv → List IterOut
  | [] => []
  | env :: rest =>
    let out := runIteration f env
    match out.result with
    | .emittedMsg => out :: run_loop f rest
    | .skipped => out :: run_loop f rest
    | .exited => [out]
    | .thrown => [out]

/-- The messages published across a run of the loop. -/
def publishedMsgs (outs : List IterOut) : List ImageMsg :=
  outs.filterMap IterOut.emitted

/-- A loop-iteration result that terminates the loop (`break` or throw). -/
def exitsLoop : IterResult → Bool
  | .exited => true
  | .thrown => true
  | _ => false

/-! ## Concrete inputs used by witnesses and counterexamples -/

/-- An iteration environment in which every DW call succeeds; the received
CPU image reports 1920×1080 and the frame's device timestamp is
1,500,250 µs. -/
def okIterEnv : IterEnv :=
  { readStatus := .success
    getImageStatus := .success
    copyConvertStatus := .success
    transformStatus := .success
    producerSendStatus := .success
    consumerReceiveStatus := .success
    getPropertiesStatus := .success
    propWidth := 1920
    propHeight := 1080
    getCPUStatus := .success
    timestamp := 1500250 }

/-- A `start` environment in which every DW call succeeds and the sensor
reports a native 1920×1080 image. -/
def okStartEnv : StartEnv :=
  { createSensorStatus := .success
    getImagePropertiesStatus := .success
    imageProperties := { width := 1920, height := 1080, format := .native 0 }
    createRgbaStatus := .success
    createResizedStatus := .success
    streamerInitStatus := .success
    sensorStartStatus := .success }

/-- `okStartEnv` with `dwSensor_start` failing. -/
def captureStartFailEnv : StartEnv :=
  { okStartEnv with sensorStartStatus := .other 5 }

/-- `okIterEnv` with `dwSensorCamera_getImage` failing. -/
def getImageFailEnv : IterEnv := { okIterEnv with getImageStatus := .other 3 }

/-- `okIterEnv` with `dwImageTransformation_copyFullImage` failing. -/
def transformFailEnv : IterEnv := { okIterEnv with transformStatus := .other 7 }

/-- `okIterEnv` with `dwImageStreamer_producerSend` failing. -/
def sendFailEnv : IterEnv := { okIterEnv with producerSendStatus := .other 4 }

/-- `okIterEnv` with the frame read reporting `DW_END_OF_STREAM`. -/
def eosEnv : IterEnv := { okIterEnv with readStatus := .endOfStream }

/-- `okIterEnv` with the frame read reporting `DW_TIME_OUT`. -/
def timeOutEnv : IterEnv := { okIterEnv with readStatus := .timeOut }

/-- `okIterEnv` with the frame read reporting `DW_NOT_READY`. -/
def notReadyEnv : IterEnv := { okIterEnv with readStatus := .notReady }

/-- `okIterEnv` with the frame read reporting some other error. -/
def readFailEnv : IterEnv := { okIterEnv with readStatus := .other 2 }

/-- The message published for `okIterEnv`. -/
def okMsg : ImageMsg := mkMsg okIterEnv

/-- A state in which the camera session is fully up and running. -/
def runningState : SensorCamera :=
  { m_cameraRun := true
    m_camera := true
    m_rgbaFrame := some { width := 1920, height := 1080, format := .RGBA_UINT8 }
    m_imageResized := none
    m_imageTransformationEngine := false
    m_streamerNvmediaToCpuProcessed :=
      some { width := 1920, height := 1080, format := .RGBA_UINT8 }
    m_shrinkFactor := 1
    threadSpawned := true }

/-! ## General lemmas about the loop -/

/-- Unfolding of `run_loop` on a nonempty environment list. -/
theorem run_loop_cons (f : ℚ) (env : IterEnv) (rest : List IterEnv) :
    run_loop f (env :: rest) =
      if exitsLoop (runIteration f env).result
      then [runIteration f env]
      else runIteration f env :: run_loop f rest := by
  show (match (runIteration f env).result with
        | .emittedMsg => runIteration f env :: run_loop f rest
        | .skipped => runIteration f env :: run_loop f rest
        | .exited => [runIteration f env]
        | .thrown => [runIteration f env]) = _
  cases h : (runIteration f env).result <;> simp [exitsLoop]

/-- Every iteration record produced by `run_loop` is `runIteration` of one
of the supplied environments. -/
theorem run_loop_out_mem (f : ℚ) (envs : List IterEnv) (o : IterOut)
    (ho : o ∈ run_loop f envs) : ∃ e ∈ envs, o = runIteration f e := by
  induction envs with
  | nil => simp [run_loop] at ho
  | cons e es ih =>
    rw [run_loop_cons] at ho
    by_cases hx : exitsLoop (runIteration f e).result
    · rw [if_pos hx] at ho
      simp only [List.mem_singleton] at ho
      exact ⟨e, List.mem_cons_self e es, ho⟩
    · rw [if_neg hx] at ho
      simp only [List.mem_cons] at ho
      rcases ho with h | h
      · exact ⟨e, List.mem_cons_self e es, h⟩
      · obtain ⟨e', he', hh⟩ := ih h
        exact ⟨e', List.mem_cons_of_mem e he', hh⟩

/-- An emitted message is completely determined by the iteration
environment: it is `mkMsg env`. -/
theorem emitted_msg_eq (f : ℚ) (env : IterEnv) (msg : ImageMsg)
    (h : (runIteration f env).emitted = some msg) : msg = mkMsg env := by
  unfold runIteration at h
  cases hr : env.readStatus <;> rw [hr] at h <;>
    simp only [iterTail] at h <;>
    repeat' split at h
  all_goals simp_all

/-! ## Claims -/

/-- C1: the claimed resource symmetry of `start` fails on the code.  When
the capture-start step (`dwSensor_start`) fails after every earlier step
succeeded, `start` returns false but releases only the Sensor Handle: the
converted RGBA image and the Cross-Domain Channel registration (streamer)
are still allocated when `start` returns. -/
theorem start_captureStartFailure_leaks :
    (start captureStartFailEnv (initState 1)).1 = .returnedFalse ∧
    (start captureStartFailEnv (initState 1)).2.m_camera = false ∧
    ((start captureStartFailEnv (initState 1)).2.m_rgbaFrame).isSome = true ∧
    ((start captureStartFailEnv
        (initState 1)).2.m_streamerNvmediaToCpuProcessed).isSome = true := by
  decide

/-- C2: the claimed gap-free sequence ids fail on the code.  Two consecutive
fully successful iterations both publish sequence id 0, because `pair_id`
is declared `unsigned int pair_id = 0;` inside the loop body and so restarts
at 0 every iteration. -/
theorem run_loop_seq_ids_all_zero :
    (publishedMsgs (run_loop 1 [okIterEnv, okIterEnv])).map ImageMsg.seq = [0, 0] := by
  decide

/-- C3: the claimed frame round-trip conservation fails on the code.  After
a successful read, a failure of `dwSensorCamera_getImage` breaks out of the
loop with no call to `dwSensorCamera_returnFrame` at all. -/
theorem frame_not_returned_on_getImage_failure :
    (runIteration 1 getImageFailEnv).frameReadOk = true ∧
    (runIteration 1 getImageFailEnv).returnFrameCalls = 0 ∧
    (runIteration 1 getImageFailEnv).result = .exited := by
  decide

/-- C4: the claimed fatality of a resize-transform failure fails on the
code.  With resizing enabled, a failing `dwImageTransformation_copyFullImage`
is not detected (its result is discarded; the following check re-reads the
stale status of `dwImage_copyConvert`): the iteration proceeds, sends the
resized buffer into the channel and publishes a message. -/
theorem transform_failure_ignored :
    transformFailEnv.transformStatus ≠ .success ∧
    (runIteration 2 transformFailEnv).result = .emittedMsg ∧
    (runIteration 2 transformFailEnv).sendAttempt = some .imageResized ∧
    ((runIteration 2 transformFailEnv).emitted).isSome = true := by
  decide

/-- C5: dispatch of the blocking frame read.  End-of-stream exits the loop;
timeout and not-ready continue to the next iteration without consuming a
frame; any other non-success status exits the loop; success proceeds into
the pipeline (a frame is consumed). -/
theorem readFrame_dispatch (f : ℚ) (env : IterEnv) (rest : List IterEnv) :
    (env.readStatus = .endOfStream →
      (runIteration f env).result = .exited ∧
      (runIteration f env).frameReadOk = false ∧
      run_loop f (env :: rest) = [runIteration f env]) ∧
    (env.readStatus = .timeOut →
      (runIteration f env).result = .skipped ∧
      (runIteration f env).frameReadOk = false ∧
      run_loop f (env :: rest) = runIteration f env :: run_loop f rest) ∧
    (env.readStatus = .notReady →
      (runIteration f env).result = .skipped ∧
      (runIteration f env).frameReadOk = false ∧
      run_loop f (env :: rest) = runIteration f env :: run_loop f rest) ∧
    (∀ c, env.readStatus = .other c →
      (runIteration f env).result = .exited ∧
      (runIteration f env).frameReadOk = false ∧
      run_loop f (env :: rest) = [runIteration f env]) ∧
    (env.readStatus = .success → (runIteration f env).frameReadOk = true) := by
  refine ⟨fun h => ?_, fun h => ?_, fun h => ?_, fun c h => ?_, fun h => ?_⟩
  · exact ⟨by simp [runIteration, h], by simp [runIteration, h],
      by rw [run_loop_cons]; simp [runIteration, h, exitsLoop]⟩
  · exact ⟨by simp [runIteration, h], by simp [runIteration, h],
      by rw [run_loop_cons]; simp [runIteration, h, exitsLoop]⟩
  · exact ⟨by simp [runIteration, h], by simp [runIteration, h],
      by rw [run_loop_cons]; simp [runIteration, h, exitsLoop]⟩
  · exact ⟨by simp [runIteration, h], by simp [runIteration, h],
      by rw [run_loop_cons]; simp [runIteration, h, exitsLoop]⟩
  · unfold runIteration
    rw [h]
    simp only [iterTail]
    repeat' split
    all_goals rfl

/-- C5 witness: the dispatch theorem applied at concrete environments for
each of the five read outcomes. -/
theorem readFrame_dispatch_witness :
    (runIteration 1 eosEnv).result = .exited ∧
    (runIteration 1 timeOutEnv).result = .skipped ∧
    (runIteration 1 notReadyEnv).result = .skipped ∧
    (runIteration 1 readFailEnv).result = .exited ∧
    (runIteration 1 okIterEnv).frameReadOk = true :=
  ⟨((readFrame_dispatch 1 eosEnv []).1 rfl).1,
   ((readFrame_dispatch 1 timeOutEnv []).2.1 rfl).1,
   ((readFrame_dispatch 1 notReadyEnv []).2.2.1 rfl).1,
   ((readFrame_dispatch 1 readFailEnv []).2.2.2.1 2 rfl).1,
   (readFrame_dispatch 1 okIterEnv []).2.2.2.2 rfl⟩

/-- C6: timestamp conversion.  Every emitted message carries
seconds = ⌊t / 1,000,000⌋ and nanoseconds = (t mod 1,000,000) × 1000, where
`t` is the frame's device-clock value in microseconds. -/
theorem timestamp_conversion (f : ℚ) (env : IterEnv) (msg : ImageMsg)
    (h : (runIteration f env).emitted = some msg) :
    msg.stampSec = env.timestamp / 1000000 ∧
    msg.stampNsec = env.timestamp % 1000000 * 1000 := by
  rw [emitted_msg_eq f env msg h]
  exact ⟨rfl, rfl⟩

/-- C6 witness: with device timestamp 1,500,250 µs the published message has
seconds = 1 and nanoseconds = 500,250,000. -/
theorem timestamp_conversion_witness :
    (runIteration 1 okIterEnv).emitted = some okMsg ∧
    okMsg.stampSec = 1 ∧ okMsg.stampNsec = 500250000 := by
  have hemit : (runIteration 1 okIterEnv).emitted = some okMsg := by decide
  have h := timestamp_conversion 1 okIterEnv okMsg hemit
  exact ⟨hemit, h.1.trans (by decide), h.2.trans (by decide)⟩

/-- C7: resize gating.  Shrink factor ≤ 1 means the transformation engine
and the resized image are never set up by `start` and the buffer sent into
the channel is never the resized one (the full-resolution converted buffer
is forwarded); shrink factor > 1 means the sent buffer is never the
full-resolution one; and with factor 2 and a 1920×1080 source the resized
buffer is created 960×540. -/
theorem resize_gating (f : ℚ) (env : StartEnv) (ienv : IterEnv) :
    (f ≤ 1 →
      (start env (initState f)).2.m_imageTransformationEngine = false ∧
      (start env (initState f)).2.m_imageResized = none ∧
      (runIteration f ienv).sendAttempt ≠ some .imageResized) ∧
    (1 < f → (runIteration f ienv).sendAttempt ≠ some .rgbaFrame) ∧
    (env.createSensorStatus = .success → env.getImagePropertiesStatus = .success →
     env.createRgbaStatus = .success → env.createResizedStatus = .success →
     env.streamerInitStatus = .success →
     env.imageProperties.width = 1920 → env.imageProperties.height = 1080 →
     (start env (initState 2)).2.m_imageResized =
       some { width := 960, height := 540, format := .RGBA_UINT8 }) := by
  refine ⟨fun hf => ?_, fun hf => ?_, fun h1 h2 h3 h4 h5 h6 h7 => ?_⟩
  · have hngt : ¬ ((1 : ℚ) < f) := not_lt.mpr hf
    refine ⟨?_, ?_, ?_⟩
    · simp only [start, startTail, initState, gt_iff_lt]
      repeat' split
      all_goals simp_all
    · simp only [start, startTail, initState, gt_iff_lt]
      repeat' split
      all_goals simp_all
    · unfold runIteration
      cases hr : ienv.readStatus <;> simp only [iterTail, gt_iff_lt]
      all_goals repeat' split
      all_goals simp_all
  · unfold runIteration
    cases hr : ienv.readStatus <;> simp only [iterTail, gt_iff_lt]
    all_goals repeat' split
    all_goals simp_all
  · simp only [start, startTail, initState, h1, h2, h3, h4, h5, gt_iff_lt]
    norm_num [shrinkDim, h6, h7]
    split <;> decide

/-- C7 witness: the gating theorem at shrink factors 1 and 2, with the
all-success environments. -/
theorem resize_gating_witness :
    (start okStartEnv (initState 1)).2.m_imageTransformationEngine = false ∧
    (start okStartEnv (initState 1)).2.m_imageResized = none ∧
    (runIteration 1 okIterEnv).sendAttempt ≠ some .imageResized ∧
    (runIteration 2 okIterEnv).sendAttempt ≠ some .rgbaFrame ∧
    (start okStartEnv (initState 2)).2.m_imageResized =
      some { width := 960, height := 540, format := .RGBA_UINT8 } := by
  have h1 := (resize_gating 1 okStartEnv okIterEnv).1 (by norm_num)
  have h2 := (resize_gating 2 okStartEnv okIterEnv).2.1 (by norm_num)
  have h3 := (resize_gating 2 okStartEnv okIterEnv).2.2 rfl rfl rfl rfl rfl rfl rfl
  exact ⟨h1.1, h1.2.1, h1.2.2, h2, h3⟩

/-- C8: idempotent stop.  Calling `stop` when not running returns false and
leaves the state untouched; when running, a completed `stop` leaves the
instance not running, so a second `stop` returns false and also leaves the
state untouched. -/
theorem stop_idempotent (s : SensorCamera) :
    (s.m_cameraRun = false → stop s = (false, s)) ∧
    (s.m_cameraRun = true →
      (stop s).1 = true ∧
      stop (stop s).2 = (false, (stop s).2)) := by
  constructor
  · intro h
    simp [stop, h]
  · intro h
    have hstop_false : ∀ t : SensorCamera, t.m_cameraRun = false → stop t = (false, t) := by
      intro t ht
      simp [stop, ht]
    have hrun : (stop s).2.m_cameraRun = false := by
      simp [stop, h]
      repeat' split
      all_goals rfl
    exact ⟨by simp [stop, h], hstop_false _ hrun⟩

/-- C8 witness: `stop` on a non-running freshly initialized state, and a
double `stop` from a fully running state. -/
theorem stop_idempotent_witness :
    stop (initState 1) = (false, initState 1) ∧
    stop (stop runningState).2 = (false, (stop runningState).2) :=
  ⟨(stop_idempotent (initState 1)).1 rfl,
   ((stop_idempotent runningState).2 rfl).2⟩

/-- C9: a failing producer-send exits the loop in both branches.  If the
read succeeded, the image was extracted and converted, and
`dwImageStreamer_producerSend` fails, then the iteration terminates the
loop (by `break` in the no-resize branch, by the `CHECK_DW_ERROR` throw in
the resize branch) and no message is published for it. -/
theorem producerSend_failure_exits (f : ℚ) (env : IterEnv) (rest : List IterEnv)
    (h1 : env.readStatus = .success) (h2 : env.getImageStatus = .success)
    (h3 : env.copyConvertStatus = .success) (h4 : env.producerSendStatus ≠ .success) :
    exitsLoop (runIteration f env).result = true ∧
    (runIteration f env).emitted = none ∧
    run_loop f (env :: rest) = [runIteration f env] := by
  have key : exitsLoop (runIteration f env).result = true ∧
      (runIteration f env).emitted = none := by
    unfold runIteration
    rw [h1]
    by_cases hf : f > 1 <;> simp [h2, h3, h4, hf, exitsLoop]
  exact ⟨key.1, key.2, by rw [run_loop_cons, if_pos key.1]⟩

/-- C9 witness: the theorem at a failing producer-send with shrink factor 1
(no-resize branch) and 2 (resize branch). -/
theorem producerSend_failure_exits_witness :
    (exitsLoop (runIteration 1 sendFailEnv).result = true ∧
     (runIteration 1 sendFailEnv).emitted = none) ∧
    (exitsLoop (runIteration 2 sendFailEnv).result = true ∧
     (runIteration 2 sendFailEnv).emitted = none) :=
  ⟨⟨(producerSend_failure_exits 1 sendFailEnv [] rfl rfl rfl (by decide)).1,
    (producerSend_failure_exits 1 sendFailEnv [] rfl rfl rfl (by decide)).2.1⟩,
   ⟨(producerSend_failure_exits 2 sendFailEnv [] rfl rfl rfl (by decide)).1,
    (producerSend_failure_exits 2 sendFailEnv [] rfl rfl rfl (by decide)).2.1⟩⟩

/-- C10: every message published by the loop, for any configuration,
carries frame id "camera", RGBA8 encoding and stride 4 × width; and the
message published by an iteration takes its width and height from the
received buffer's properties. -/
theorem published_msg_fields (f : ℚ) :
    (∀ envs msg, msg ∈ publishedMsgs (run_loop f envs) →
      msg.frame_id = "camera" ∧ msg.encoding = RGBA8 ∧ msg.step = 4 * msg.width) ∧
    (∀ env msg, (runIteration f env).emitted = some msg →
      msg.frame_id = "camera" ∧ msg.encoding = RGBA8 ∧
      msg.width = env.propWidth ∧ msg.height = env.propHeight ∧
      msg.step = 4 * env.propWidth) := by
  have key : ∀ env msg, (runIteration f env).emitted = some msg →
      msg.frame_id = "camera" ∧ msg.encoding = RGBA8 ∧
      msg.width = env.propWidth ∧ msg.height = env.propHeight ∧
      msg.step = 4 * env.propWidth := by
    intro env msg h
    rw [emitted_msg_eq f env msg h]
    exact ⟨rfl, rfl, rfl, rfl, rfl⟩
  refine ⟨?_, key⟩
  intro envs msg hmem
  unfold publishedMsgs at hmem
  rw [List.mem_filterMap] at hmem
  obtain ⟨o, ho, he⟩ := hmem
  obtain ⟨e, _, rfl⟩ := run_loop_out_mem f envs o ho
  obtain ⟨hid, henc, hw, _, hstep⟩ := key e msg he
  exact ⟨hid, henc, by rw [hstep, hw]⟩

/-- C10 witness: the field theorem at the all-success environment. -/
theorem published_msg_fields_witness :
    okMsg.frame_id = "camera" ∧ okMsg.encoding = RGBA8 ∧
    okMsg.step = 4 * okMsg.width ∧ okMsg.width = 1920 ∧ okMsg.height = 1080 := by
  have h := (published_msg_fields 1).1 [okIterEnv] okMsg (by decide)
  have h2 := (published_msg_fields 1).2 okIterEnv okMsg (by decide)
  exact ⟨h.1, h.2.1, h.2.2, h2.2.2.1.trans (by decide), h2.2.2.2.1.trans (by decide)⟩

end NvSensors
